import Mathlib

/-!
# Verification of the youtube-map-parser utilities

A shallow embedding of the three scripts of the repository
(`filter_channels.py`, `update_y_map_json.py`, `export_to_csv.py`) and
proofs about the behaviour their specification claims.

Modelling conventions:
* JSON field values are modelled by `JVal`; lists in this dataset hold
  scalar entries (`JPrim`), which is all the schema and the claims use.
  JSON objects appearing as generic field values are outside the scope of
  every claim (the code would stringify them and fail integer parsing,
  yielding 0, exactly like the `JVal.list` case).
* A channel record is a structure of optional fields; `none` models an
  absent key (`dict.get` returning `None`).  The nested `statistic`
  object is flattened into the three count fields: both programs access
  it only through `item.get("statistic", {}).get(key)`, which collapses
  "statistic missing" and "key missing" into the same `None`.
* Python machine behaviour carried over: `str.lower`/`str.strip` become
  `String.toLower`/`String.trim`; `int(str(v).strip())` becomes an
  explicit parser for Python's integer-literal grammar (sign, digits,
  single internal underscores); `in` on strings is substring search over
  code points.
-/

/-- Scalar JSON values (entries of list-valued fields). -/
inductive JPrim where
  | null
  | bool (b : Bool)
  | int (n : Int)
  | str (s : String)
deriving DecidableEq, Repr

/-- JSON field values as this dataset uses them. -/
inductive JVal where
  | null
  | bool (b : Bool)
  | int (n : Int)
  | str (s : String)
  | list (xs : List JPrim)
deriving DecidableEq, Repr

/-- Python `str()` of a scalar. -/
def pyStrPrim : JPrim → String
  | .null => "None"
  | .bool b => if b then "True" else "False"
  | .int n => toString n
  | .str s => s

/-- Python `repr()` of a scalar (as used when a list is stringified). -/
def pyReprPrim : JPrim → String
  | .str s => "\x27" ++ s ++ "\x27"
  | p => pyStrPrim p

/-- Python `str()` of a field value. -/
def pyStr : JVal → String
  | .null => "None"
  | .bool b => if b then "True" else "False"
  | .int n => toString n
  | .str s => s
  | .list xs => "[" ++ String.intercalate ", " (xs.map pyReprPrim) ++ "]"

/-- The whitespace characters Python's default `str.strip()` removes
(restricted to ASCII, which is all the dataset and the claims use). -/
def isPySpace (c : Char) : Bool :=
  c = ' ' || c = '\t' || c = '\n' || c = '\r' || c = '\x0b' || c = '\x0c'

/-- Python `str.strip()` (kernel-reducible replacement for `String.trim`). -/
def trimStr (s : String) : String :=
  String.mk (((s.data.dropWhile isPySpace).reverse.dropWhile isPySpace).reverse)

/-- Python `str.lower()` (ASCII case mapping, like the data uses). -/
def lowerStr (s : String) : String :=
  String.mk (s.data.map Char.toLower)

/-- Python `s.split(",")` on the character list. -/
def splitCommaAux : List Char → List (List Char)
  | [] => [[]]
  | ',' :: rest => [] :: splitCommaAux rest
  | c :: rest =>
      match splitCommaAux rest with
      | [] => [[c]]
      | g :: gs => (c :: g) :: gs

/-- Python `s.split(",")`: always nonempty, `""` gives `[""]`. -/
def splitComma (s : String) : List String :=
  (splitCommaAux s.data).map String.mk

/-- Digits of a Python integer literal after the first digit: a single
underscore may separate two digits. -/
def pyDigitsAux : List Char → Nat → Option Nat
  | [], acc => some acc
  | '_' :: c :: rest, acc =>
      if c.isDigit then pyDigitsAux rest (acc * 10 + (c.toNat - 48)) else none
  | ['_'], _ => none
  | c :: rest, acc =>
      if c.isDigit then pyDigitsAux rest (acc * 10 + (c.toNat - 48)) else none

/-- A nonempty run of digits with optional single internal underscores. -/
def pyDigits : List Char → Option Nat
  | [] => none
  | c :: rest => if c.isDigit then pyDigitsAux rest (c.toNat - 48) else none

/-- Python `int(s)` on an already-stripped string: optional sign followed
by digits.  `none` models `ValueError`. -/
def pyStrToInt (s : String) : Option Int :=
  match s.data with
  | '+' :: rest => (pyDigits rest).map (fun n => (n : Int))
  | '-' :: rest => (pyDigits rest).map (fun n => -(n : Int))
  | cs => (pyDigits cs).map (fun n => (n : Int))

/-- `parse_int` from `filter_channels.py`: `None` → 0, `int` (including
`bool`, a Python `int` subtype) passes through, anything else goes
through `int(str(value).strip())` with 0 on failure. -/
def parse_int : JVal → Int
  | .null => 0
  | .bool b => if b then 1 else 0
  | .int n => n
  | .str s => (pyStrToInt (trimStr s)).getD 0
  | .list _ => 0

/-- `normalize_text`: `None` passes through, else `strip().lower()`. -/
def normalize_text (v : Option String) : Option String :=
  v.map (fun s => lowerStr (trimStr s))

/-- `split_arg_values`: split on commas, strip and lowercase each part,
drop empty parts; an empty result (or `None` input) deactivates the
filter. -/
def split_arg_values (raw : Option String) : Option (List String) :=
  match raw with
  | none => none
  | some r =>
      let values := ((splitComma r).filter (fun item => trimStr item ≠ "")).map
        (fun item => lowerStr (trimStr item))
      if values = [] then none else some values

/-- Python `pat in s` on strings: substring search over code points. -/
def hasSubstr : List Char → List Char → Bool
  | [], pat => pat.isEmpty
  | h :: t, pat => pat.isPrefixOf (h :: t) || hasSubstr t pat

/-- `category_matches`: some category, stringified and lowercased,
contains some pattern. -/
def category_matches (cats : List JPrim) (patterns : List String) : Bool :=
  cats.any (fun cat => patterns.any
    (fun pattern => hasSubstr (lowerStr (pyStrPrim cat)).data pattern.data))

/-- `keyword_matches`: some title, stringified and lowercased, contains
the (lowercased) keyword. -/
def keyword_matches (titles : List JPrim) (keyword : String) : Bool :=
  titles.any (fun title =>
    hasSubstr (lowerStr (pyStrPrim title)).data (lowerStr keyword).data)

/-- A channel record; `none` is an absent key. -/
structure Channel where
  channelName : Option String := none
  originalUrl : Option String := none
  clusterName : Option String := none
  inferredClusterName : Option String := none
  subscribersCount : Option JVal := none
  viewsCount : Option JVal := none
  videosCount : Option JVal := none
  channelCategories : Option JVal := none
  definedCategories : Option JVal := none
  lastVideoTitles : Option (List JPrim) := none
deriving DecidableEq, Repr

/-- The CLI arguments of `filter_channels.py` relevant to filtering. -/
structure Args where
  cluster : Option String := none
  inferred_cluster : Option String := none
  min_subscribers : Int := 0
  max_subscribers : Option Int := none
  category : Option String := none
  keyword : Option String := none
  limit : Int := 50
  output_csv : Option String := none
deriving DecidableEq, Repr

/-- The argparse defaults of `parse_args` (what an invocation with no
explicit flags produces). -/
def parse_args_default : Args :=
  { cluster := none, inferred_cluster := none, min_subscribers := 0,
    max_subscribers := none, category := none, keyword := none,
    limit := 50, output_csv := none }

/-- `item.get("definedCategories") or []` followed by iteration: a list
iterates its entries; a string iterates its characters; `None`/absent and
falsy values give `[]`.  (A truthy non-iterable would raise in Python;
the dataset schema keeps category fields list-valued, so that case is
outside every claim and mapped to `[]`.) -/
def asCatList : Option JVal → List JPrim
  | some (.list xs) => xs
  | some (.str s) => s.data.map (fun c => JPrim.str c.toString)
  | _ => []

/-- The per-record predicate of the `filter_channels` loop: each `continue`
becomes a conjunct. -/
def passes (clusters inferred_clusters categories : Option (List String))
    (keyword : Option String) (minS : Int) (maxS : Option Int)
    (item : Channel) : Bool :=
  let subscribers := parse_int (item.subscribersCount.getD .null)
  let cluster_name := normalize_text item.clusterName
  let inferred_cluster_name := normalize_text item.inferredClusterName
  (match clusters with
   | none => true
   | some cs => match cluster_name with
     | none => false
     | some n => decide (n ∈ cs)) &&
  (match inferred_clusters with
   | none => true
   | some cs => match inferred_cluster_name with
     | none => false
     | some n => decide (n ∈ cs)) &&
  decide (minS ≤ subscribers) &&
  (match maxS with
   | none => true
   | some mx => decide (subscribers ≤ mx)) &&
  (match categories with
   | none => true
   | some patterns => category_matches (asCatList item.definedCategories) patterns) &&
  (match keyword with
   | none => true
   | some kw => keyword_matches (item.lastVideoTitles.getD []) kw)

/-- `args.keyword.lower() if args.keyword else None` (empty string is
falsy). -/
def keywordOf (a : Args) : Option String :=
  match a.keyword with
  | none => none
  | some k => if k = "" then none else some (lowerStr k)

/-- The predicate `filter_channels` applies, with the arguments already
split. -/
def passesOf (a : Args) : Channel → Bool :=
  passes (split_arg_values a.cluster) (split_arg_values a.inferred_cluster)
    (split_arg_values a.category) (keywordOf a) a.min_subscribers
    a.max_subscribers

/-- The copied record appended by the loop: `subscribersCount` replaced by
its normalized integer. -/
def normalizeChannel (item : Channel) : Channel :=
  { item with
      subscribersCount := some (.int (parse_int (item.subscribersCount.getD .null))) }

/-- The sort key `x.get("statistic", {}).get("subscribersCount", 0)`; on
the records the loop produced this is always the normalized integer. -/
def sortKey (c : Channel) : Int :=
  match c.subscribersCount with
  | some (.int n) => n
  | _ => 0

/-- Insert into a descending-sorted list, after existing records of equal
key: the unique stable positioning, matching Python's stable
`list.sort(key=..., reverse=True)`. -/
def insertDesc (c : Channel) : List Channel → List Channel
  | [] => [c]
  | d :: rest =>
      if sortKey d ≤ sortKey c then c :: d :: rest else d :: insertDesc c rest

/-- Stable sort by `sortKey`, descending. -/
def sortDesc (l : List Channel) : List Channel :=
  l.foldr insertDesc []

/-- `filter_channels`: keep the matching records, copy them with the
normalized subscriber count, and sort by it descending (stable). -/
def filter_channels (data : List Channel) (a : Args) : List Channel :=
  sortDesc ((data.filter (passesOf a)).map normalizeChannel)

/-- The cell a CSV writer produces for a raw statistic value fetched with
`statistics.get(key, "")`: absent key → `""`, explicit `null` → `None`,
which the `csv` module writes as the empty string, other values via
`str()`. -/
def cellOf (v : Option JVal) : String :=
  match v with
  | none => ""
  | some .null => ""
  | some x => pyStr x

/-- One printed result line of `print_results`:
name | count підписників | cluster | URL. -/
def lineOf (c : Channel) : String :=
  String.intercalate " | "
    [c.channelName.getD "(без назви)",
     pyStr (c.subscribersCount.getD (.int 0)) ++ " підписників",
     c.clusterName.getD "",
     c.originalUrl.getD ""]

/-- What `print_results` writes to standard output, kept structured: the
per-record lines, the count line, and the optional truncation line. -/
structure PrintedOutput where
  rowLines : List String
  foundLine : String
  shownLine : Option String
deriving DecidableEq, Repr

/-- `print_results(channels, total_before_limit)`. -/
def print_results (channels : List Channel) (total_before_limit : Nat) :
    PrintedOutput :=
  { rowLines := channels.map lineOf,
    foundLine := "Знайдено каналів: " ++ toString total_before_limit,
    shownLine :=
      if total_before_limit = channels.length then none
      else some ("Показано: " ++ toString channels.length) }

/-- The state of the input file as `load_channels` can observe it. -/
inductive FileContent where
  | absent
  | invalidJson (err : String)
  | jsonNonArray
  | jsonArray (data : List Channel)

/-- The exceptions `load_channels` raises. -/
inductive LoadError where
  | notFound (path : String)
  | valueErr (msg : String)
deriving DecidableEq, Repr

/-- `load_channels`: missing file → `FileNotFoundError`; JSON decode
failure and non-array top level → `ValueError`. -/
def load_channels (path : String) : FileContent → Except LoadError (List Channel)
  | .absent => .error (.notFound path)
  | .invalidJson e => .error (.valueErr ("Не вдалося прочитати JSON: " ++ e))
  | .jsonNonArray => .error (.valueErr "Очікується масив об\x27єктів у JSON.")
  | .jsonArray d => .ok d

/-- The line `main` prints for a caught exception: `str(exc)` for
`FileNotFoundError`, a prefixed message for `ValueError`. -/
def errorLine : LoadError → String
  | .notFound p => "Файл " ++ p ++ " не знайдено."
  | .valueErr m => "Помилка читання JSON: " ++ m

/-- Everything observable about one run of `filter_channels.py`'s `main`. -/
structure RunOutput where
  exitCode : Int
  errorMsg : Option String
  printed : Option PrintedOutput
  shown : List Channel
  csvRows : Option (List Channel)
deriving DecidableEq, Repr

/-- `main` of `filter_channels.py`: load, filter, truncate when
`limit > 0`, print, optionally export (an empty `--output-csv` string is
falsy, so no file is written for it). -/
def filter_main (path : String) (file : FileContent) (a : Args) : RunOutput :=
  match load_channels path file with
  | .error e =>
      { exitCode := 1, errorMsg := some (errorLine e), printed := none,
        shown := [], csvRows := none }
  | .ok data =>
      let filtered := filter_channels data a
      let total_before_limit := filtered.length
      let shown := if 0 < a.limit then filtered.take a.limit.toNat else filtered
      { exitCode := 0, errorMsg := none,
        printed := some (print_results shown total_before_limit),
        shown := shown,
        csvRows :=
          match a.output_csv with
          | none => none
          | some p => if p = "" then none else some shown }

/-- `format_list` of `export_to_csv.py`: a list joins with `","`, `None`
gives the empty string, anything else its `str()` form. -/
def format_list : JVal → String
  | .list xs => String.intercalate "," (xs.map pyStrPrim)
  | .null => ""
  | v => pyStr v

/-- One 9-column CSV row, post-stringification by the `csv` module. -/
structure Row where
  channelName : String
  originalUrl : String
  subscribersCount : String
  viewsCount : String
  videosCount : String
  channelCategories : String
  definedCategories : String
  clusterName : String
  inferredClusterName : String
deriving DecidableEq, Repr

/-- `extract_row` of `export_to_csv.py`: scalar fields default to `""`,
category fields go through `format_list` with default `[]`. -/
def extract_row (channel : Channel) : Row :=
  { channelName := channel.channelName.getD "",
    originalUrl := channel.originalUrl.getD "",
    subscribersCount := cellOf channel.subscribersCount,
    viewsCount := cellOf channel.viewsCount,
    videosCount := cellOf channel.videosCount,
    channelCategories := format_list (channel.channelCategories.getD (.list [])),
    definedCategories := format_list (channel.definedCategories.getD (.list [])),
    clusterName := channel.clusterName.getD "",
    inferredClusterName := channel.inferredClusterName.getD "" }

/-- The filesystem state the updater can mutate: the snapshot file and
the backup files (held by contents; names are timestamps, out of
scope). -/
structure FS where
  localFile : Option (List Nat)
  backups : List (List Nat)
deriving DecidableEq, Repr

/-- An HTTP response of `requests.get`; a network error is modelled as no
response at all. -/
structure HttpResponse where
  status : Nat
  body : List Nat
deriving DecidableEq, Repr

/-- The reported outcome of one updater run. `fetchError` is the
propagated exception; `noChange` is the "Змін не виявлено" message;
`updated` is the "Файл оновлено" message, recording whether a backup was
written. -/
inductive UpdResult where
  | fetchError
  | noChange
  | updated (backupCreated : Bool)
deriving DecidableEq, Repr

/-- `main` of `update_y_map_json.py` over an explicit filesystem state:
read the local file and hash it; fetch (`raise_for_status` raises for
4xx/5xx); compare hashes; on change, back up the old bytes (if any) and
overwrite the snapshot. -/
def updater_main (resp : Option HttpResponse) (hash : List Nat → List Nat)
    (fs : FS) : FS × UpdResult :=
  let old_hash : Option (List Nat) := fs.localFile.map hash
  match resp with
  | none => (fs, .fetchError)
  | some r =>
      if 400 ≤ r.status ∧ r.status < 600 then (fs, .fetchError)
      else
        let new_bytes := r.body
        let new_hash := hash new_bytes
        if old_hash = some new_hash then (fs, .noChange)
        else
          match fs.localFile with
          | some lb =>
              ({ localFile := some new_bytes, backups := fs.backups ++ [lb] },
               .updated true)
          | none => ({ localFile := some new_bytes, backups := fs.backups },
               .updated false)

/-- Does `parse_int` see a negative integer in this value?  (Negative
`int`s pass through the `isinstance` branch; strings go through
`int(str(value).strip())`.) -/
def encodesNegative : JVal → Bool
  | .int n => decide (n < 0)
  | .str s =>
      (match pyStrToInt (trimStr s) with
       | some n => decide (n < 0)
       | none => false)
  | _ => false

example : parse_int (.str "  42 ") = 42 := by decide
example : parse_int (.str "abc") = 0 := by decide
example : parse_int (.str "-7") = -7 := by decide
example : parse_int (.str "1_0") = 10 := by decide
example : parse_int (.str "1_") = 0 := by decide
example : split_arg_values (some "A, B") = some ["a", "b"] := by decide
example : split_arg_values (some " , ") = none := by decide
example :
    (filter_channels
      [{ channelName := some "x", subscribersCount := some (.int 5) },
       { channelName := some "y", subscribersCount := some (.int 100) }]
      parse_args_default).map (fun c => c.channelName) =
      [some "y", some "x"] := by decide

/-! ## Properties of the stable descending sort -/

theorem mem_insertDesc {x c : Channel} : ∀ {l : List Channel},
    x ∈ insertDesc c l ↔ x = c ∨ x ∈ l
  | [] => by simp [insertDesc]
  | d :: rest => by
      by_cases h : sortKey d ≤ sortKey c
      · simp [insertDesc, h]
      · simp only [insertDesc, if_neg h, List.mem_cons, mem_insertDesc]
        tauto

theorem mem_sortDesc {x : Channel} : ∀ {l : List Channel},
    x ∈ sortDesc l ↔ x ∈ l
  | [] => Iff.rfl
  | c :: rest => by
      show x ∈ insertDesc c (sortDesc rest) ↔ _
      rw [mem_insertDesc, mem_sortDesc]
      simp

theorem pairwise_insertDesc {c : Channel} : ∀ {l : List Channel},
    l.Pairwise (fun a b => sortKey b ≤ sortKey a) →
    (insertDesc c l).Pairwise (fun a b => sortKey b ≤ sortKey a)
  | [], _ => by simp [insertDesc]
  | d :: rest, h => by
      rw [List.pairwise_cons] at h
      by_cases hc : sortKey d ≤ sortKey c
      · rw [insertDesc, if_pos hc, List.pairwise_cons]
        refine ⟨?_, List.pairwise_cons.mpr h⟩
        intro b hb
        rcases List.mem_cons.mp hb with hb | hb
        · exact hb ▸ hc
        · exact le_trans (h.1 b hb) hc
      · rw [insertDesc, if_neg hc, List.pairwise_cons]
        refine ⟨?_, pairwise_insertDesc h.2⟩
        intro b hb
        rcases mem_insertDesc.mp hb with hb | hb
        · exact hb ▸ le_of_lt (lt_of_not_le hc)
        · exact h.1 b hb

theorem pairwise_sortDesc : ∀ (l : List Channel),
    (sortDesc l).Pairwise (fun a b => sortKey b ≤ sortKey a)
  | [] => List.Pairwise.nil
  | _ :: rest => pairwise_insertDesc (pairwise_sortDesc rest)

theorem filter_insertDesc (k : Int) (c : Channel) : ∀ (l : List Channel),
    (insertDesc c l).filter (fun x => decide (sortKey x = k)) =
      if sortKey c = k then c :: l.filter (fun x => decide (sortKey x = k))
      else l.filter (fun x => decide (sortKey x = k))
  | [] => by
      by_cases h : sortKey c = k <;> simp [insertDesc, List.filter, h]
  | d :: rest => by
      by_cases hc : sortKey d ≤ sortKey c
      · rw [insertDesc, if_pos hc]
        by_cases h : sortKey c = k <;> simp [List.filter_cons, h]
      · rw [insertDesc, if_neg hc]
        rw [List.filter_cons, List.filter_cons, filter_insertDesc k c rest]
        by_cases h : sortKey c = k
        · have hd : ¬ sortKey d = k := by
            intro hdk
            exact hc (le_of_eq (h ▸ hdk))
          simp [h, hd]
        · simp [h]

theorem filter_sortDesc (k : Int) : ∀ (l : List Channel),
    (sortDesc l).filter (fun x => decide (sortKey x = k)) =
      l.filter (fun x => decide (sortKey x = k))
  | [] => rfl
  | c :: rest => by
      show (insertDesc c (sortDesc rest)).filter _ = _
      rw [filter_insertDesc k c (sortDesc rest), filter_sortDesc k rest,
        List.filter_cons]
      by_cases h : sortKey c = k <;> simp [h]

/-- The example dataset of the sort-order claim: subscriber counts
[5, 100, 100, 1] carried by channels a, b, c, d. -/
def c2_example_data : List Channel :=
  [{ channelName := some "a", subscribersCount := some (.int 5) },
   { channelName := some "b", subscribersCount := some (.int 100) },
   { channelName := some "c", subscribersCount := some (.int 100) },
   { channelName := some "d", subscribersCount := some (.int 1) }]

/-- C2: `filter_channels` returns the records sorted by the normalized
subscriber count in descending order, equal counts keeping their relative
input order (the output filtered to any one key value equals the
pre-sort, input-ordered list filtered to that value — the standard
characterization of a stable sort); on counts [5, 100, 100, 1] the output
order is [100, 100, 5, 1] with the two 100-records (b before c) in their
input order. -/
theorem c2_sorted_stable (data : List Channel) (a : Args) :
    (filter_channels data a).Pairwise (fun x y => sortKey y ≤ sortKey x) ∧
    (∀ c ∈ filter_channels data a,
      c.subscribersCount = some (.int (sortKey c))) ∧
    (∀ k : Int,
      (filter_channels data a).filter (fun c => decide (sortKey c = k)) =
        ((data.filter (passesOf a)).map normalizeChannel).filter
          (fun c => decide (sortKey c = k))) ∧
    (filter_channels c2_example_data parse_args_default).map
        (fun c => (c.channelName, sortKey c)) =
      [(some "b", 100), (some "c", 100), (some "a", 5), (some "d", 1)] := by
  refine ⟨pairwise_sortDesc _, ?_, fun k => filter_sortDesc k _, by decide⟩
  intro c hc
  rw [filter_channels, mem_sortDesc] at hc
  obtain ⟨b, _, rfl⟩ := List.mem_map.mp hc
  rfl

/-- A record whose cluster name carries surrounding whitespace. -/
def c1_cex_channel : Channel := { clusterName := some " A " }

/-- The cluster filter argument of the counterexample. -/
def c1_cex_args : Args := { cluster := some "A" }

/-- C1 counterexample: with allow-list "A" (case-folded values ["a"]),
the record with `clusterName = " A "` is returned by `filter_channels`
even though its case-folded cluster name " a " is not one of the
case-folded comma-separated values — the code also strips surrounding
whitespace before comparing. -/
theorem c1_counterexample :
    (filter_channels [c1_cex_channel] c1_cex_args).map (fun c => c.clusterName) =
      [some " A "] ∧
    (splitComma "A").map lowerStr = ["a"] ∧
    ¬ lowerStr " A " ∈ ["a"] := by
  refine ⟨by decide, by decide, by decide⟩

/-- C1 (amended): whenever a cluster (resp. inferred-cluster) allow-list
is active, every record `filter_channels` returns has a present
`clusterName` (resp. `inferredClusterName`) whose whitespace-stripped,
case-folded text equals one of the stripped, case-folded comma-separated
values; in particular a record with the field missing is excluded. -/
theorem c1_cluster_allowlist (data : List Channel) (a : Args) (c : Channel)
    (hc : c ∈ filter_channels data a) :
    (∀ vs, split_arg_values a.cluster = some vs →
      ∃ nm, c.clusterName = some nm ∧ lowerStr (trimStr nm) ∈ vs) ∧
    (∀ vs, split_arg_values a.inferred_cluster = some vs →
      ∃ nm, c.inferredClusterName = some nm ∧ lowerStr (trimStr nm) ∈ vs) := by
  rw [filter_channels, mem_sortDesc] at hc
  obtain ⟨b, hb, rfl⟩ := List.mem_map.mp hc
  have hpass : passesOf a b = true := (List.mem_filter.mp hb).2
  rw [passesOf, passes.eq_def] at hpass
  simp only [Bool.and_eq_true] at hpass
  constructor
  · intro vs hvs
    rw [hvs] at hpass
    have h1 := hpass.1.1.1.1.1
    cases hb1 : b.clusterName with
    | none => rw [normalize_text, hb1] at h1; exact absurd h1 (by simp)
    | some nm =>
        rw [normalize_text, hb1] at h1
        simp only [Option.map_some] at h1
        exact ⟨nm, by simp [normalizeChannel, hb1], by simpa using h1⟩
  · intro vs hvs
    rw [hvs] at hpass
    have h2 := hpass.1.1.1.1.2
    cases hb2 : b.inferredClusterName with
    | none => rw [normalize_text, hb2] at h2; exact absurd h2 (by simp)
    | some nm =>
        rw [normalize_text, hb2] at h2
        simp only [Option.map_some] at h2
        exact ⟨nm, by simp [normalizeChannel, hb2], by simpa using h2⟩

/-- A record matching the witness allow-list. -/
def c1_wit_channel : Channel := { clusterName := some "A" }

/-- The witness allow-list argument "A,B". -/
def c1_wit_args : Args := { cluster := some "A,B" }

/-- Witness for C1: with allow-list "A,B" the returned copy of the
record named cluster "A" indeed has a present cluster name whose
stripped, case-folded text is in ["a", "b"]. -/
theorem c1_witness :
    ∃ nm, (normalizeChannel c1_wit_channel).clusterName = some nm ∧
      lowerStr (trimStr nm) ∈ ["a", "b"] := by
  have h := c1_cluster_allowlist [c1_wit_channel] c1_wit_args
    (normalizeChannel c1_wit_channel) (by decide)
  exact h.1 ["a", "b"] (by decide)

/-- C3: the limit is applied after filtering and sorting: a limit ≤ 0
means no truncation, a positive limit shows at most that many records,
the "Знайдено каналів" line always reports the pre-truncation match
count, and the "Показано" line is present exactly when the shown count
differs from that total. -/
theorem filter_main_ok (path : String) (data : List Channel) (a : Args) :
    filter_main path (.jsonArray data) a =
      { exitCode := 0, errorMsg := none,
        printed := some (print_results
          (if 0 < a.limit then (filter_channels data a).take a.limit.toNat
           else filter_channels data a) (filter_channels data a).length),
        shown := if 0 < a.limit then (filter_channels data a).take a.limit.toNat
          else filter_channels data a,
        csvRows :=
          match a.output_csv with
          | none => none
          | some p =>
              if p = "" then none
              else some (if 0 < a.limit
                then (filter_channels data a).take a.limit.toNat
                else filter_channels data a) } := rfl

theorem c3_limit (path : String) (data : List Channel) (a : Args) :
    (a.limit ≤ 0 →
      (filter_main path (.jsonArray data) a).shown = filter_channels data a) ∧
    (0 < a.limit →
      (filter_main path (.jsonArray data) a).shown.length ≤ a.limit.toNat) ∧
    (∃ po, (filter_main path (.jsonArray data) a).printed = some po ∧
      po.foundLine =
        "Знайдено каналів: " ++ toString (filter_channels data a).length ∧
      po.rowLines.length = (filter_main path (.jsonArray data) a).shown.length ∧
      (po.shownLine.isSome ↔
        (filter_main path (.jsonArray data) a).shown.length ≠
          (filter_channels data a).length)) := by
  rw [filter_main_ok]
  refine ⟨fun hle => ?_, fun hpos => ?_, ?_⟩
  · simp only
    rw [if_neg (by omega)]
  · simp only
    rw [if_pos hpos]
    simp
  · refine ⟨_, rfl, rfl, by simp [print_results], ?_⟩
    simp only [print_results]
    by_cases h :
        (filter_channels data a).length =
          (if 0 < a.limit then (filter_channels data a).take a.limit.toNat
           else filter_channels data a).length
    · simp [h]
    · simp [h, Ne.symm h]

/-- Seven matching records, subscriber counts 10 … 70. -/
def c3_data7 : List Channel :=
  (List.range 7).map (fun i =>
    { subscribersCount := some (.int ((i : Int) * 10 + 10)) })

/-- Default arguments with `--limit 3`. -/
def c3_args3 : Args := { parse_args_default with limit := 3 }

/-- Witness for C3: 7 matching records with limit 3 show 3 rows, report
"Знайдено каналів: 7", and print a "Показано" line. -/
theorem c3_witness :
    (filter_channels c3_data7 c3_args3).length = 7 ∧
    (filter_main "y_map_channels.json" (.jsonArray c3_data7) c3_args3).shown.length = 3 ∧
    (filter_main "y_map_channels.json" (.jsonArray c3_data7) c3_args3).shown.length ≤
      (3 : Int).toNat ∧
    (∃ po,
      (filter_main "y_map_channels.json" (.jsonArray c3_data7) c3_args3).printed =
        some po ∧
      po.foundLine =
        "Знайдено каналів: " ++ toString (filter_channels c3_data7 c3_args3).length ∧
      po.shownLine.isSome) := by
  refine ⟨by decide, by decide,
    (c3_limit "y_map_channels.json" c3_data7 c3_args3).2.1 (by decide), ?_⟩
  obtain ⟨po, h1, h2, _, h4⟩ := (c3_limit "y_map_channels.json" c3_data7 c3_args3).2.2
  exact ⟨po, h1, h2, h4.mpr (by decide)⟩

/-- C4: a `subscribersCount` that fails integer parsing coerces to 0
rather than raising or excluding the record: `parse_int` maps any
unparsable string to 0 (so "abc" behaves exactly as the integer 0 and
the whole filter result is unchanged by swapping one for the other),
`None`/missing maps to 0, and the numeric string "42" maps to 42. -/
theorem c4_coercion (s : String) (hs : pyStrToInt (trimStr s) = none)
    (c : Channel) (pre post : List Channel) (a : Args) :
    parse_int (.str s) = 0 ∧
    filter_channels (pre ++ { c with subscribersCount := some (.str s) } :: post) a =
      filter_channels (pre ++ { c with subscribersCount := some (.int 0) } :: post) a ∧
    parse_int .null = 0 ∧
    parse_int (.str "42") = 42 := by
  have hg : (pyStrToInt (trimStr s)).getD 0 = 0 := by rw [hs]; rfl
  have h0 : parse_int (.str s) = 0 := by simp [parse_int, hg]
  refine ⟨h0, ?_, rfl, by decide⟩
  have hpass : passesOf a { c with subscribersCount := some (.str s) } =
      passesOf a { c with subscribersCount := some (.int 0) } := by
    simp [passesOf, passes, parse_int, hg]
  have hnorm : normalizeChannel { c with subscribersCount := some (.str s) } =
      normalizeChannel { c with subscribersCount := some (.int 0) } := by
    simp [normalizeChannel, parse_int, hg]
  rw [filter_channels, filter_channels, List.filter_append, List.filter_append,
    List.filter_cons, List.filter_cons, hpass]
  by_cases hp : passesOf a { c with subscribersCount := some (.int 0) } = true
  · simp only [hp, if_pos]
    rw [List.map_append, List.map_append, List.map_cons, List.map_cons, hnorm]
  · simp [hp]

/-- A record with a non-numeric subscriber count. -/
def c4_wit_channel : Channel :=
  { channelName := some "n", subscribersCount := some (.str "abc") }

/-- Witness for C4 at s = "abc": the record behaves as count 0 and, with
the default minimum of 0, is still returned. -/
theorem c4_witness :
    parse_int (.str "abc") = 0 ∧
    filter_channels [c4_wit_channel] parse_args_default =
      filter_channels [{ channelName := some "n", subscribersCount := some (.int 0) }]
        parse_args_default ∧
    (filter_channels [c4_wit_channel] parse_args_default).length = 1 := by
  have h := c4_coercion "abc" (by decide) { channelName := some "n" } [] []
    parse_args_default
  exact ⟨h.1, h.2.1, by decide⟩

/-- C5 counterexample: `parse_int` does return a negative number — a
negative integer value passes through the `isinstance(value, int)`
branch unchanged. -/
theorem c5_counterexample : parse_int (.int (-1)) < 0 := by decide

/-- C5 (amended): `parse_int` returns a negative number exactly when the
value already encodes one — a negative integer, or a string whose
stripped text parses as a negative integer; on `None`/missing, booleans,
lists, unparsable strings, and non-negative numbers the result is a
non-negative integer. -/
theorem c5_nonneg_iff (v : JVal) :
    parse_int v < 0 ↔ encodesNegative v = true := by
  cases v with
  | null => simp [parse_int, encodesNegative]
  | bool b => cases b <;> simp [parse_int, encodesNegative]
  | int n => simp [parse_int, encodesNegative]
  | str s =>
      rw [parse_int, encodesNegative]
      cases hp : pyStrToInt (trimStr s) <;> simp [hp]
  | list xs => simp [parse_int, encodesNegative]

/-- C6: when the fetch fails — a network error (no response) or a
non-success HTTP status (4xx/5xx, which `raise_for_status` turns into an
exception) — the updater aborts with the local snapshot file and the
backups exactly as they were. -/
theorem c6_fetch_failure (hash : List Nat → List Nat) (fs : FS)
    (r : HttpResponse) (h1 : 400 ≤ r.status) (h2 : r.status < 600) :
    updater_main none hash fs = (fs, .fetchError) ∧
    updater_main (some r) hash fs = (fs, .fetchError) := by
  constructor
  · rfl
  · rw [updater_main]
    simp [h1, h2]

/-- Witness for C6 at a 404 response and a network error. -/
theorem c6_witness :
    updater_main none (fun l => l) { localFile := some [1], backups := [] } =
      ({ localFile := some [1], backups := [] }, .fetchError) ∧
    updater_main (some { status := 404, body := [2] }) (fun l => l)
        { localFile := some [1], backups := [] } =
      ({ localFile := some [1], backups := [] }, .fetchError) :=
  c6_fetch_failure (fun l => l) { localFile := some [1], backups := [] }
    { status := 404, body := [2] } (by decide) (by decide)

/-- C7: if the hash of the fetched bytes equals the hash of the existing
local file, the run mutates nothing — same filesystem state (so no new
backup) and the "no change" report; consequently a second run against an
unchanged upstream always leaves the filesystem of the first run intact
and reports "no change". -/
theorem c7_idempotent (hash : List Nat → List Nat) (fs : FS)
    (r : HttpResponse) (lb : List Nat)
    (hok : ¬ (400 ≤ r.status ∧ r.status < 600)) :
    (fs.localFile = some lb → hash lb = hash r.body →
      updater_main (some r) hash fs = (fs, .noChange)) ∧
    (updater_main (some r) hash (updater_main (some r) hash fs).1 =
      ((updater_main (some r) hash fs).1, .noChange)) := by
  constructor
  · intro hl hh
    rw [updater_main]
    simp [hok, hl, hh]
  · rw [updater_main]
    simp only [if_neg hok]
    by_cases hc : (updater_main (some r) hash fs).1.localFile.map hash =
        some (hash r.body)
    · rw [if_pos hc]
    · exfalso
      apply hc
      rw [updater_main]
      simp only [if_neg hok]
      by_cases h1 : fs.localFile.map hash = some (hash r.body)
      · rw [if_pos h1]
        exact h1
      · rw [if_neg h1]
        cases hl : fs.localFile <;> simp [hl]

/-- Witness for C7: local bytes [7], fetched bytes [7], identity hash. -/
theorem c7_witness :
    updater_main (some { status := 200, body := [7] }) (fun l => l)
        { localFile := some [7], backups := [] } =
      ({ localFile := some [7], backups := [] }, .noChange) ∧
    updater_main (some { status := 200, body := [7] }) (fun l => l)
        (updater_main (some { status := 200, body := [7] }) (fun l => l)
          { localFile := some [7], backups := [] }).1 =
      ((updater_main (some { status := 200, body := [7] }) (fun l => l)
          { localFile := some [7], backups := [] }).1, .noChange) := by
  have h := c7_idempotent (fun l => l) { localFile := some [7], backups := [] }
    { status := 200, body := [7] } [7] (by decide)
  exact ⟨h.1 rfl rfl, h.2⟩

/-- C8 counterexample: a present non-list scalar category field is NOT
written as the empty string — the exporter writes its `str()` form
("news" for the string "news", "5" for the number 5). -/
theorem c8_counterexample :
    (extract_row { channelCategories := some (.str "news"),
                   definedCategories := some (.int 5) }).channelCategories =
      "news" ∧
    (extract_row { channelCategories := some (.str "news"),
                   definedCategories := some (.int 5) }).definedCategories =
      "5" ∧
    "news" ≠ "" ∧ "5" ≠ "" := by
  refine ⟨by decide, by decide, by decide, by decide⟩

/-- C8 (amended): for a present non-list `channelCategories` or
`definedCategories` value the exporter writes the empty string only for
`null`; any other scalar is written in its `str()` form; an absent field
yields the empty string (the join of the default empty list). -/
theorem c8_scalar_categories (c : Channel) (v : JVal)
    (hv : ∀ xs, v ≠ JVal.list xs) :
    (extract_row { c with channelCategories := some v }).channelCategories =
      (if v = .null then "" else pyStr v) ∧
    (extract_row { c with definedCategories := some v }).definedCategories =
      (if v = .null then "" else pyStr v) ∧
    (extract_row { c with channelCategories := none }).channelCategories = "" ∧
    (extract_row { c with definedCategories := none }).definedCategories = "" := by
  have hnil : ",".intercalate ([] : List String) = "" := rfl
  refine ⟨?_, ?_, by simp [extract_row, format_list, hnil],
    by simp [extract_row, format_list, hnil]⟩ <;>
    cases v with
    | null => simp [extract_row, format_list]
    | bool b => simp [extract_row, format_list]
    | int n => simp [extract_row, format_list]
    | str s => simp [extract_row, format_list]
    | list xs => exact absurd rfl (hv xs)

/-- Witness for C8 at the scalar string "x". -/
theorem c8_witness :
    (extract_row { channelCategories := some (.str "x") }).channelCategories = "x" ∧
    (extract_row { definedCategories := some (.str "x") }).definedCategories = "x" := by
  have h := c8_scalar_categories {} (.str "x") (fun xs hh => JVal.noConfusion hh)
  exact ⟨by simpa using h.1, by simpa using h.2.1⟩

/-- C9: a missing input file, invalid JSON, or a non-array JSON top level
makes the rich filter print the error, return exit status 1, print no
results, and write no output CSV. -/
theorem c9_error_paths (path : String) (e : String) (a : Args) :
    ((filter_main path .absent a).exitCode = 1 ∧
      (filter_main path .absent a).csvRows = none ∧
      (filter_main path .absent a).printed = none ∧
      (filter_main path .absent a).errorMsg =
        some ("Файл " ++ path ++ " не знайдено.")) ∧
    ((filter_main path (.invalidJson e) a).exitCode = 1 ∧
      (filter_main path (.invalidJson e) a).csvRows = none ∧
      (filter_main path (.invalidJson e) a).printed = none ∧
      (filter_main path (.invalidJson e) a).errorMsg =
        some ("Помилка читання JSON: Не вдалося прочитати JSON: " ++ e)) ∧
    ((filter_main path .jsonNonArray a).exitCode = 1 ∧
      (filter_main path .jsonNonArray a).csvRows = none ∧
      (filter_main path .jsonNonArray a).printed = none ∧
      (filter_main path .jsonNonArray a).errorMsg =
        some ("Помилка читання JSON: Очікується масив об\x27єктів у JSON.")) :=
  ⟨⟨rfl, rfl, rfl, rfl⟩, ⟨rfl, rfl, rfl, rfl⟩, ⟨rfl, rfl, rfl, rfl⟩⟩

/-- C10: without an explicit limit argument the limit is the argparse
default 50, not unlimited: the shown list is the first 50 records of the
sorted, filtered result (so at most 50 records), and the CSV export
receives exactly the shown (truncated) records. -/
theorem c10_default_limit (path : String) (data : List Channel) (a : Args)
    (h : a.limit = parse_args_default.limit) :
    parse_args_default.limit = 50 ∧
    (filter_main path (.jsonArray data) a).shown =
      (filter_channels data a).take 50 ∧
    (filter_main path (.jsonArray data) a).shown.length ≤ 50 ∧
    (∀ p, a.output_csv = some p → p ≠ "" →
      (filter_main path (.jsonArray data) a).csvRows =
        some ((filter_main path (.jsonArray data) a).shown)) := by
  have h50 : a.limit = 50 := h
  rw [filter_main_ok]
  have hshown :
      (if 0 < a.limit then (filter_channels data a).take a.limit.toNat
       else filter_channels data a) = (filter_channels data a).take 50 := by
    rw [h50]
    rfl
  refine ⟨rfl, ?_, ?_, ?_⟩
  · simpa using hshown
  · simp only [hshown]
    simp
  · intro p hp hne
    simp only [hp, hshown]
    simp [hne]

/-- 51 matching records with subscriber counts 0 … 50. -/
def c10_data51 : List Channel :=
  (List.range 51).map (fun i => { subscribersCount := some (.int (i : Int)) })

/-- Witness for C10: with 51 matching records and no explicit limit, 50
records are shown and they are the top 50 of the sorted result. -/
theorem c10_witness :
    (filter_channels c10_data51 parse_args_default).length = 51 ∧
    (filter_main "y_map_channels.json" (.jsonArray c10_data51)
        parse_args_default).shown =
      (filter_channels c10_data51 parse_args_default).take 50 ∧
    (filter_main "y_map_channels.json" (.jsonArray c10_data51)
        parse_args_default).shown.length = 50 := by
  have h := c10_default_limit "y_map_channels.json" c10_data51
    parse_args_default rfl
  exact ⟨by decide, h.2.1, by decide⟩

/-- The record named "b" of the example dataset. -/
def c2_wit_channel : Channel :=
  { channelName := some "b", subscribersCount := some (.int 100) }

/-- Witness for C2: in the example output, the record named "b" indeed
carries its normalized count as its sort key. -/
theorem c2_witness :
    (normalizeChannel c2_wit_channel).subscribersCount =
      some (.int (sortKey (normalizeChannel c2_wit_channel))) :=
  (c2_sorted_stable c2_example_data parse_args_default).2.1 _ (by decide)

/-- Witness for C5 (amended) at the negative integer -2. -/
theorem c5_witness : parse_int (.int (-2)) < 0 :=
  (c5_nonneg_iff (.int (-2))).mpr (by decide)
